import Mathlib

set_option maxRecDepth 100000

/-!
Shallow embedding of the `agentic-ai-starter-kit` repository.

The embedding covers the pieces the verified claims are about:
* `src/src/tools/math_tool.py` — the `evaluate_math` tool, including a model
  of Python `eval` restricted to the whitelisted arithmetic character set,
  Python `int()` / `float()` string parsing, and Python exception values;
* `src/src/agent/core.py` — `Memory`, the tool registry, and the tool-call
  dispatch loop of `Agent.solve`.

Python exceptions are modelled with `Except PyExc`: a Lean value
`Except.error e` corresponds to a raised (propagating) Python exception,
while `Except.ok` corresponds to a normal return.  The external completion
API is modelled as an oracle (`ApiBehavior`) supplying the outcome of each
of the two completion calls `Agent.solve` makes.
-/

/-- Model of the Python exception values that the embedded code can raise.
Every variant is a subclass of Python `Exception`, so each is caught by an
`except Exception` handler. -/
inductive PyExc where
  | keyError (key : String)
  | valueError (msg : String)
  | zeroDivisionError (msg : String)
  | invalidSyntax (msg : String)
  deriving Repr, DecidableEq

/-- Python `str(e)` for the modelled exceptions, as interpolated by the
tool's `f"Error: {e}"` handlers.  `str` of a `KeyError` is the repr of the
missing key; `str` of a `SyntaxError` carries a location suffix. -/
def PyExc.toMessage : PyExc → String
  | .keyError k => "'" ++ k ++ "'"
  | .valueError m => m
  | .zeroDivisionError m => m
  | .invalidSyntax m => m ++ " (<string>, line 1)"

/-- Models a Python `try: return body / except Exception as e: return
f"Error: {e}"` block: a normal result passes through, a raised exception is
converted to a tagged error string. -/
def pyCatch (body : Except PyExc String) : String :=
  match body with
  | .ok s => s
  | .error e => "Error: " ++ e.toMessage

/-- The ASCII whitespace characters stripped by Python `str.strip()` and by
`int()`/`float()` parsing (Unicode whitespace is outside the modelled
subset; no claim depends on it). -/
def isPySpace (c : Char) : Bool :=
  c == ' ' || c == '\t' || c == '\n' || c == '\r' || c == '\x0b' || c == '\x0c'

/-- Strip leading and trailing Python whitespace from a character list. -/
def pyStripChars (cs : List Char) : List Char :=
  ((cs.dropWhile isPySpace).reverse.dropWhile isPySpace).reverse

/-- Python `str.strip()` (with no argument). -/
def pyStrip (s : String) : String :=
  ⟨pyStripChars s.data⟩

/-- Numeric value of a decimal digit character. -/
def digitVal (c : Char) : Nat := c.toNat - '0'.toNat

/-- Decimal value of a digit string (most significant first). -/
def digitsVal (ds : List Char) : Nat :=
  ds.foldl (fun a c => 10 * a + digitVal c) 0

/-- Parse the digit body accepted by Python `int()`: decimal digits in
groups separated by single underscores (`1_0` parses, `1__0`, `_1`, `1_`
do not).  `acc` is the value of the digits consumed so far. -/
def parseUDigitsAux : Nat → List Char → Option Nat
  | acc, [] => some acc
  | acc, c :: cs =>
    if c.isDigit then parseUDigitsAux (10 * acc + digitVal c) cs
    else if c == '_' then
      match cs with
      | d :: cs' => if d.isDigit then parseUDigitsAux (10 * acc + digitVal d) cs' else none
      | [] => none
    else none

/-- Parse a nonempty underscore-grouped digit string; the first character
must be a digit. -/
def parseUDigits : List Char → Option Nat
  | [] => none
  | c :: cs => if c.isDigit then parseUDigitsAux (digitVal c) cs else none

/-- Model of Python `int(s)` on a string argument: strip whitespace, accept
an optional sign followed by underscore-grouped decimal digits; `none`
corresponds to `int` raising `ValueError`. -/
def pyIntParse (s : String) : Option Int :=
  match pyStripChars s.data with
  | '+' :: rest => (parseUDigits rest).map Int.ofNat
  | '-' :: rest => (parseUDigits rest).map (fun n => -(Int.ofNat n))
  | rest => (parseUDigits rest).map Int.ofNat

/-- Model of Python `float(s)` on the subset exercised here: strip
whitespace, optional sign, decimal digits with an optional single dot
(`"1."`, `".5"` accepted).  Exponents, `inf`/`nan` and underscores are
outside the modelled subset; no claim depends on the `sqrt` mode's parsing
behavior. -/
def pyFloatParse (s : String) : Option Float :=
  let core : List Char → Option Float := fun cs =>
    let ipart := cs.takeWhile Char.isDigit
    match cs.drop ipart.length with
    | [] => if ipart.isEmpty then none else some (Float.ofNat (digitsVal ipart))
    | '.' :: rest =>
      let fpart := rest.takeWhile Char.isDigit
      if (rest.drop fpart.length).isEmpty && !(ipart.isEmpty && fpart.isEmpty) then
        some (Float.ofScientific (digitsVal (ipart ++ fpart)) true fpart.length)
      else none
    | _ => none
  match pyStripChars s.data with
  | '+' :: rest => core rest
  | '-' :: rest => (core rest).map Neg.neg
  | rest => core rest

/-- Python repr of a str as interpolated into `int()`/`float()` error
messages; escaping of quotes and control characters inside `s` is not
modelled (no claim inspects these messages beyond their tag). -/
def pyReprString (s : String) : String := "'" ++ s ++ "'"

/-! ### Model of Python `eval` on the whitelisted arithmetic subset

The `eval` mode of the tool runs `eval(expr, {"__builtins__": {}}, {})`
after checking that every character of `expr` lies in
`"0123456789+-*/(). "`.  On that character set the reachable Python grammar
is arithmetic over int and float literals with `+ - * / // **`, unary
signs and parentheses.  We model it with a tokenizer and a recursive
descent parser following Python's expression grammar, then evaluate the
resulting tree.  Floats are represented by Lean `Float`; their formatting
and rounding approximate CPython's, and the complex-number promotion of
`**` on negative bases is not modelled — no claim exercises any float
result. -/

/-- Tokens producible from the whitelisted character set. -/
inductive Tok where
  | intTok (n : Nat)
  | floatTok (f : Float)
  | plusTok
  | minusTok
  | starTok
  | slashTok
  | dstarTok
  | dslashTok
  | lparenTok
  | rparenTok
  deriving Repr

/-- Scan a numeric literal: a maximal run of digits and dots.  No dot gives
an int literal (Python rejects leading zeros on a nonzero decimal int
literal); one dot gives a float literal; more than one is a syntax
error. -/
def scanNumber (cs : List Char) : Except PyExc (Tok × List Char) :=
  let body := cs.takeWhile (fun c => c.isDigit || c == '.')
  let rest := cs.drop body.length
  let dots := (body.filter (fun c => c == '.')).length
  if dots == 0 then
    if body.head? == some '0' && body.any (fun c => c != '0') then
      .error (.invalidSyntax
        "leading zeros in decimal integer literals are not permitted; use an 0o prefix for octal integers")
    else
      .ok (.intTok (digitsVal body), rest)
  else if dots == 1 then
    let ipart := body.takeWhile Char.isDigit
    let fpart := (body.drop (ipart.length + 1)).takeWhile Char.isDigit
    .ok (.floatTok (Float.ofScientific (digitsVal (ipart ++ fpart)) true fpart.length), rest)
  else
    .error (.invalidSyntax "invalid syntax")

/-- Tokenize the whitelisted characters; `fuel` bounds the iteration count
(one unit per consumed character suffices). -/
def tokenizeAux : Nat → List Char → Except PyExc (List Tok)
  | _, [] => .ok []
  | 0, _ => .error (.invalidSyntax "invalid syntax")
  | fuel + 1, c :: cs =>
    if c == ' ' then tokenizeAux fuel cs
    else if c.isDigit || (c == '.' && ((cs.head?.map Char.isDigit).getD false)) then
      match scanNumber (c :: cs) with
      | .error e => .error e
      | .ok (t, rest) => (tokenizeAux fuel rest).map (fun ts => t :: ts)
    else if c == '*' then
      match cs with
      | '*' :: cs' => (tokenizeAux fuel cs').map (fun ts => Tok.dstarTok :: ts)
      | _ => (tokenizeAux fuel cs).map (fun ts => Tok.starTok :: ts)
    else if c == '/' then
      match cs with
      | '/' :: cs' => (tokenizeAux fuel cs').map (fun ts => Tok.dslashTok :: ts)
      | _ => (tokenizeAux fuel cs).map (fun ts => Tok.slashTok :: ts)
    else if c == '+' then (tokenizeAux fuel cs).map (fun ts => Tok.plusTok :: ts)
    else if c == '-' then (tokenizeAux fuel cs).map (fun ts => Tok.minusTok :: ts)
    else if c == '(' then (tokenizeAux fuel cs).map (fun ts => Tok.lparenTok :: ts)
    else if c == ')' then (tokenizeAux fuel cs).map (fun ts => Tok.rparenTok :: ts)
    else .error (.invalidSyntax "invalid syntax")

/-- Tokenize an expression string (character list). -/
def tokenize (cs : List Char) : Except PyExc (List Tok) :=
  tokenizeAux (cs.length + 1) cs

/-- Abstract syntax of the reachable arithmetic expressions. -/
inductive AExp where
  | intLit (n : Nat)
  | floatLit (f : Float)
  | unaryPlus (a : AExp)
  | unaryMinus (a : AExp)
  | add (a b : AExp)
  | sub (a b : AExp)
  | mul (a b : AExp)
  | trueDiv (a b : AExp)
  | floorDiv (a b : AExp)
  | pow (a b : AExp)
  deriving Repr

mutual

/-- `expr := term (('+'|'-') term)*` -/
def parseExpr (fuel : Nat) (ts : List Tok) : Except PyExc (AExp × List Tok) :=
  match fuel with
  | 0 => .error (.invalidSyntax "invalid syntax")
  | fuel' + 1 =>
    match parseTerm fuel' ts with
    | .error e => .error e
    | .ok (a, rest) => parseExprTail fuel' a rest

/-- Left-associated tail of additive operators. -/
def parseExprTail (fuel : Nat) (a : AExp) (ts : List Tok) : Except PyExc (AExp × List Tok) :=
  match fuel with
  | 0 => .error (.invalidSyntax "invalid syntax")
  | fuel' + 1 =>
    match ts with
    | .plusTok :: rest =>
      match parseTerm fuel' rest with
      | .error e => .error e
      | .ok (b, rest') => parseExprTail fuel' (.add a b) rest'
    | .minusTok :: rest =>
      match parseTerm fuel' rest with
      | .error e => .error e
      | .ok (b, rest') => parseExprTail fuel' (.sub a b) rest'
    | _ => .ok (a, ts)

/-- `term := factor (('*'|'/'|'//') factor)*` -/
def parseTerm (fuel : Nat) (ts : List Tok) : Except PyExc (AExp × List Tok) :=
  match fuel with
  | 0 => .error (.invalidSyntax "invalid syntax")
  | fuel' + 1 =>
    match parseFactor fuel' ts with
    | .error e => .error e
    | .ok (a, rest) => parseTermTail fuel' a rest

/-- Left-associated tail of multiplicative operators. -/
def parseTermTail (fuel : Nat) (a : AExp) (ts : List Tok) : Except PyExc (AExp × List Tok) :=
  match fuel with
  | 0 => .error (.invalidSyntax "invalid syntax")
  | fuel' + 1 =>
    match ts with
    | .starTok :: rest =>
      match parseFactor fuel' rest with
      | .error e => .error e
      | .ok (b, rest') => parseTermTail fuel' (.mul a b) rest'
    | .slashTok :: rest =>
      match parseFactor fuel' rest with
      | .error e => .error e
      | .ok (b, rest') => parseTermTail fuel' (.trueDiv a b) rest'
    | .dslashTok :: rest =>
      match parseFactor fuel' rest with
      | .error e => .error e
      | .ok (b, rest') => parseTermTail fuel' (.floorDiv a b) rest'
    | _ => .ok (a, ts)

/-- `factor := ('+'|'-') factor | power` (Python's unary layer). -/
def parseFactor (fuel : Nat) (ts : List Tok) : Except PyExc (AExp × List Tok) :=
  match fuel with
  | 0 => .error (.invalidSyntax "invalid syntax")
  | fuel' + 1 =>
    match ts with
    | .plusTok :: rest =>
      match parseFactor fuel' rest with
      | .error e => .error e
      | .ok (a, rest') => .ok (.unaryPlus a, rest')
    | .minusTok :: rest =>
      match parseFactor fuel' rest with
      | .error e => .error e
      | .ok (a, rest') => .ok (.unaryMinus a, rest')
    | _ => parsePower fuel' ts

/-- `power := atom ['**' factor]` — `**` is right associative and its right
operand may carry unary signs, as in Python. -/
def parsePower (fuel : Nat) (ts : List Tok) : Except PyExc (AExp × List Tok) :=
  match fuel with
  | 0 => .error (.invalidSyntax "invalid syntax")
  | fuel' + 1 =>
    match parseAtom fuel' ts with
    | .error e => .error e
    | .ok (a, rest) =>
      match rest with
      | .dstarTok :: rest' =>
        match parseFactor fuel' rest' with
        | .error e => .error e
        | .ok (b, rest'') => .ok (.pow a b, rest'')
      | _ => .ok (a, rest)

/-- `atom := number | '(' expr ')'` -/
def parseAtom (fuel : Nat) (ts : List Tok) : Except PyExc (AExp × List Tok) :=
  match fuel with
  | 0 => .error (.invalidSyntax "invalid syntax")
  | fuel' + 1 =>
    match ts with
    | .intTok n :: rest => .ok (.intLit n, rest)
    | .floatTok f :: rest => .ok (.floatLit f, rest)
    | .lparenTok :: rest =>
      match parseExpr fuel' rest with
      | .error e => .error e
      | .ok (a, .rparenTok :: rest') => .ok (a, rest')
      | .ok _ => .error (.invalidSyntax "invalid syntax")
    | _ => .error (.invalidSyntax "invalid syntax")

end

/-- Runtime values of the modelled evaluator: Python int (arbitrary
precision) or float. -/
inductive PyVal where
  | intVal (n : Int)
  | floatVal (f : Float)

/-- Numeric coercion to float, as Python applies in mixed arithmetic. -/
def PyVal.asFloat : PyVal → Float
  | .intVal n => Float.ofInt n
  | .floatVal f => f

/-- Python `+` on numbers. -/
def pyAdd : PyVal → PyVal → PyVal
  | .intVal a, .intVal b => .intVal (a + b)
  | a, b => .floatVal (a.asFloat + b.asFloat)

/-- Python binary `-` on numbers. -/
def pySub : PyVal → PyVal → PyVal
  | .intVal a, .intVal b => .intVal (a - b)
  | a, b => .floatVal (a.asFloat - b.asFloat)

/-- Python `*` on numbers. -/
def pyMul : PyVal → PyVal → PyVal
  | .intVal a, .intVal b => .intVal (a * b)
  | a, b => .floatVal (a.asFloat * b.asFloat)

/-- Python `/` (true division): raises `ZeroDivisionError` on a zero
divisor, otherwise produces a float even for int operands. -/
def pyTrueDiv : PyVal → PyVal → Except PyExc PyVal
  | a, .intVal b =>
    if b = 0 then .error (.zeroDivisionError "division by zero")
    else .ok (.floatVal (a.asFloat / Float.ofInt b))
  | a, .floatVal f =>
    if f == 0 then .error (.zeroDivisionError "float division by zero")
    else .ok (.floatVal (a.asFloat / f))

/-- Python `//` (floor division). -/
def pyFloorDiv : PyVal → PyVal → Except PyExc PyVal
  | .intVal a, .intVal b =>
    if b = 0 then .error (.zeroDivisionError "integer division or modulo by zero")
    else .ok (.intVal (Int.fdiv a b))
  | a, .floatVal f =>
    if f == 0 then .error (.zeroDivisionError "float floor division by zero")
    else .ok (.floatVal (Float.floor (a.asFloat / f)))
  | a, .intVal b =>
    if b = 0 then .error (.zeroDivisionError "float floor division by zero")
    else .ok (.floatVal (Float.floor (a.asFloat / Float.ofInt b)))

/-- Python `**`.  Int base with nonnegative int exponent is exact; a zero
base with negative exponent raises; other combinations fall to float
arithmetic (the complex promotion on negative float bases is not
modelled — no claim exercises it). -/
def pyPow : PyVal → PyVal → Except PyExc PyVal
  | .intVal a, .intVal b =>
    if 0 ≤ b then .ok (.intVal (a ^ b.toNat))
    else if a = 0 then .error (.zeroDivisionError "0.0 cannot be raised to a negative power")
    else .ok (.floatVal (Float.pow (Float.ofInt a) (Float.ofInt b)))
  | a, b => .ok (.floatVal (Float.pow a.asFloat b.asFloat))

/-- Python unary `-` on numbers. -/
def pyNeg : PyVal → PyVal
  | .intVal n => .intVal (-n)
  | .floatVal f => .floatVal (-f)

/-- Evaluate a parsed expression, left to right as Python does. -/
def evalAExp : AExp → Except PyExc PyVal
  | .intLit n => .ok (.intVal (Int.ofNat n))
  | .floatLit f => .ok (.floatVal f)
  | .unaryPlus a => evalAExp a
  | .unaryMinus a => (evalAExp a).map pyNeg
  | .add a b => do pure (pyAdd (← evalAExp a) (← evalAExp b))
  | .sub a b => do pure (pySub (← evalAExp a) (← evalAExp b))
  | .mul a b => do pure (pyMul (← evalAExp a) (← evalAExp b))
  | .trueDiv a b => do pyTrueDiv (← evalAExp a) (← evalAExp b)
  | .floorDiv a b => do pyFloorDiv (← evalAExp a) (← evalAExp b)
  | .pow a b => do pyPow (← evalAExp a) (← evalAExp b)

/-- Python `str()` of an eval result.  Float formatting is modelled with
Lean's printing, an approximation of CPython repr; no claim inspects a
float result. -/
def pyValStr : PyVal → String
  | .intVal n => toString n
  | .floatVal f => toString f

/-- Model of `eval(expr, {"__builtins__": {}}, {})` on a whitelisted
expression string: tokenize, parse (the whole token stream must be
consumed), then evaluate and render the value. -/
def pyEvalString (expr : String) : Except PyExc String := do
  let toks ← tokenize expr.data
  match parseExpr (8 * toks.length + 8) toks with
  | .error e => .error e
  | .ok (a, []) => do
    let v ← evalAExp a
    pure (pyValStr v)
  | .ok (_, _ :: _) => .error (.invalidSyntax "invalid syntax")

/-! ### The math tool (`src/src/tools/math_tool.py`) -/

/-- Argument payload passed to a tool handler: the structured map produced
from the model's JSON arguments.  The claims only exercise string-valued
fields, matching the tool's `MathRequest` schema. -/
abbrev Args := List (String × String)

/-- Python dict lookup used by the tool (`payload[key]` semantics are split
into `argsLookup` and `argsGet`). -/
def argsLookup (payload : Args) (key : String) : Option String :=
  (payload.find? (fun p => p.1 == key)).map (fun p => p.2)

/-- Python `payload[key]`: raises `KeyError(key)` when the key is absent. -/
def argsGet (payload : Args) (key : String) : Except PyExc String :=
  match argsLookup payload key with
  | some v => .ok v
  | none => .error (.keyError key)

/-- The character whitelist of `evaluate_math`'s eval mode:
`allowed = set("0123456789+-*/(). ")`. -/
def allowedEvalChars : List Char := "0123456789+-*/(). ".data

/-- Embedding of `evaluate_math` from `src/src/tools/math_tool.py`.

The two subscripts `payload["expression"]` and `payload["mode"]` happen
before any `try` block, so a missing key raises (propagates a `KeyError`).
Each mode's body is a `try/except Exception` block modelled by `pyCatch`;
the eval mode's character-whitelist check sits before its `try`. -/
def evaluate_math (payload : Args) : Except PyExc String := do
  let expr ← argsGet payload "expression"
  let mode ← argsGet payload "mode"
  if mode == "sqrt" then
    pure (pyCatch (
      match pyFloatParse expr with
      | none => .error (.valueError ("could not convert string to float: " ++ pyReprString expr))
      | some x =>
        if x < 0 then .error (.valueError "math domain error")
        else .ok (toString (Float.sqrt x))))
  else if mode == "factorial" then
    pure (pyCatch (
      match pyIntParse expr with
      | none => .error (.valueError ("invalid literal for int() with base 10: " ++ pyReprString expr))
      | some n =>
        if n < 0 ∨ n > 10000 then .ok "Error: n out of range"
        else .ok (toString (Nat.factorial n.toNat))))
  else if mode == "eval" then
    if expr.data.all (fun c => decide (c ∈ allowedEvalChars)) then
      pure (pyCatch (pyEvalString expr))
    else
      pure "Error: disallowed characters"
  else
    pure "Error: unknown mode"

/-! ### The agent (`src/src/agent/core.py`) -/

/-- A stored conversation turn (`{"role": ..., "content": ...}`). -/
structure Turn where
  role : String
  content : String
  deriving Repr, DecidableEq

/-- The function part of a model-issued tool call
(`call.function.name` / `call.function.arguments`).  The source also
accepts the arguments as a raw JSON string and normalizes it with
`json.loads`; the claims only exercise the already-structured form, so the
arguments are carried here in normalized shape. -/
structure ToolCallFunction where
  name : String
  arguments : Args
  deriving Repr, DecidableEq

/-- A model-issued tool call (`call.id` plus its function part). -/
structure ToolCall where
  id : String
  function : ToolCallFunction
  deriving Repr, DecidableEq

/-- One message dict of the outgoing message list.  The source builds plain
dicts with varying key sets; absent keys are `none` here. -/
structure Msg where
  role : String
  content : Option String := none
  tool_call_id : Option String := none
  name : Option String := none
  tool_calls : Option (List ToolCall) := none
  deriving Repr, DecidableEq

/-- `Memory` — the very lightweight conversational memory buffer. -/
structure Memory where
  turns : List Turn := []
  deriving Repr, DecidableEq

/-- `Memory.add`: `self.turns.append({"role": role, "content": content})`.
No validation of any kind is performed on `role`. -/
def Memory.add (m : Memory) (role content : String) : Memory :=
  ⟨m.turns ++ [⟨role, content⟩]⟩

/-- `Memory.as_messages`: rebuild `{"role": ..., "content": ...}` dicts from
the stored turns, in insertion order.  A pure function of the buffer. -/
def Memory.as_messages (m : Memory) : List Msg :=
  m.turns.map (fun t => { role := t.role, content := some t.content })

/-- Minimal JSON-like values, used only to carry each tool's parameter
schema verbatim. -/
inductive JVal where
  | str (s : String)
  | arr (xs : List JVal)
  | obj (fields : List (String × JVal))

/-- `ToolSpec`: name, description, parameter schema, and handler.  A handler
is Python-typed as returning `str` but may raise, hence `Except PyExc`. -/
structure ToolSpec where
  name : String
  description : String
  parameters : JVal
  handler : Args → Except PyExc String

/-- The agent's tool registry `self.tools : Dict[str, ToolSpec]`, modelled
as an insertion-ordered association list (Python dicts preserve insertion
order; overwriting keeps the original position). -/
abbrev Registry := List (String × ToolSpec)

/-- Python dict assignment `self.tools[tool.name] = tool`. -/
def registryInsert (reg : Registry) (tool : ToolSpec) : Registry :=
  if (reg.map Prod.fst).contains tool.name then
    reg.map (fun p => if p.1 == tool.name then (p.1, tool) else p)
  else
    reg ++ [(tool.name, tool)]

/-- Python dict subscript `self.tools[name]`, `none` meaning the lookup
would raise `KeyError(name)`. -/
def registryLookup (reg : Registry) (name : String) : Option ToolSpec :=
  (reg.find? (fun p => p.1 == name)).map (fun p => p.2)

/-- The built-in `evaluate_math` ToolSpec registered by `Agent.__init__`,
with its JSON parameter schema. -/
def evaluateMathSpec : ToolSpec :=
  { name := "evaluate_math"
    description := "Safely evaluate arithmetic, sqrt, or factorial."
    parameters := JVal.obj
      [("type", JVal.str "object"),
       ("properties", JVal.obj
         [("expression", JVal.obj [("type", JVal.str "string")]),
          ("mode", JVal.obj
            [("type", JVal.str "string"),
             ("enum", JVal.arr [JVal.str "eval", JVal.str "sqrt", JVal.str "factorial"])])]),
       ("required", JVal.arr [JVal.str "expression", JVal.str "mode"])]
    handler := fun args => evaluate_math args }

/-- The agent's local state: the memory buffer and the tool registry.  The
API client and the `Settings` model identifiers only parameterize the
outbound requests and are not observed by any claim; the external API
itself is modelled by `ApiBehavior` below. -/
structure Agent where
  memory : Memory
  tools : Registry

/-- `Agent.register_tool`: insert or overwrite by name. -/
def Agent.register_tool (ag : Agent) (tool : ToolSpec) : Agent :=
  { ag with tools := registryInsert ag.tools tool }

/-- An agent as constructed by `Agent.__init__`: empty memory and the one
built-in tool registered. -/
def mkAgent : Agent :=
  Agent.register_tool { memory := ⟨[]⟩, tools := [] } evaluateMathSpec

/-- The first-pass response message (`first.choices[0].message`): optional
text content and the requested tool calls.  Python's `if msg.tool_calls:`
treats both `None` and `[]` as "no calls", so the two are identified as the
empty list. -/
structure FirstMessage where
  content : Option String := none
  tool_calls : List ToolCall := []
  deriving Repr, DecidableEq

/-- Oracle for the two external completion calls `Agent.solve` makes: the
outcome of the first pass, and the content of the second pass
(`second.choices[0].message.content`).  `Except.error` models the API call
raising. -/
structure ApiBehavior where
  firstResponse : Except String FirstMessage
  secondResponse : Except String (Option String)

/-- Errors with which `Agent.solve` can terminate: a raised exception from
an external API call, or a raised Python exception from the dispatch
loop. -/
inductive SolveErr where
  | apiError (e : String)
  | pyError (e : PyExc)
  deriving Repr, DecidableEq

/-- The observable outcome of one `Agent.solve` invocation: the returned
final answer (or the propagated exception), the memory buffer afterwards,
and the message list passed to the second completion call when one is
made. -/
structure SolveResult where
  result : Except SolveErr String
  memory : Memory
  secondPassMessages : Option (List Msg)
  deriving Repr

/-- The fixed system instruction of `Agent.solve`. -/
def solveSystemPrompt : String :=
  "You are a precise problem solver. Use tools when arithmetic is nontrivial. Return a final answer with a short explanation, no hidden reasoning steps."

/-- The initial message list assembled by `Agent.solve`:
system instruction, full prior memory transcript, new user turn. -/
def solveInitMessages (ag : Agent) (question : String) : List Msg :=
  { role := "system", content := some solveSystemPrompt }
    :: ag.memory.as_messages
    ++ [{ role := "user", content := some question }]

/-- The tool-result turn appended for one dispatched call. -/
def toolResultMsg (call : ToolCall) (result : String) : Msg :=
  { role := "tool",
    tool_call_id := some call.id,
    name := some call.function.name,
    content := some result }

/-- The assistant turn carrying the original tool-call request list
(`{"role": "assistant", "content": None, "tool_calls": msg.tool_calls}`). -/
def assistantToolRequestMsg (calls : List ToolCall) : Msg :=
  { role := "assistant", content := none, tool_calls := some calls }

/-- One iteration of the dispatch loop body: look up the handler
(`self.tools[name]`, raising `KeyError` when absent), invoke it, and build
the tool-result turn. -/
def dispatchOne (tools : Registry) (call : ToolCall) : Except PyExc Msg :=
  match registryLookup tools call.function.name with
  | none => .error (.keyError call.function.name)
  | some spec =>
    match spec.handler call.function.arguments with
    | .error e => .error e
    | .ok result => .ok (toolResultMsg call result)

/-- The dispatch loop: process the calls in model-given order, appending
each result turn to the growing message list; a raised exception aborts the
loop and propagates. -/
def dispatchCalls (tools : Registry) : List ToolCall → List Msg → Except PyExc (List Msg)
  | [], messages => .ok messages
  | c :: rest, messages =>
    match dispatchOne tools c with
    | .error e => .error e
    | .ok m => dispatchCalls tools rest (messages ++ [m])

/-- Embedding of `Agent.solve` from `src/src/agent/core.py`.

The first completion call may raise (propagated).  If the response carries
tool calls they are dispatched in order onto the message list; the second
completion call is then made with `messages + [assistant tool-request
turn]` — note the source appends that assistant turn at the END of the
list it sends.  The final answer (trimmed, with `None` content read as
`""`) is appended to long-lived memory under role `assistant` and
returned. -/
def Agent.solve (ag : Agent) (api : ApiBehavior) (question : String) : SolveResult :=
  let messages := solveInitMessages ag question
  match api.firstResponse with
  | .error e =>
    { result := .error (.apiError e), memory := ag.memory, secondPassMessages := none }
  | .ok msg =>
    if msg.tool_calls.isEmpty then
      let final := pyStrip (msg.content.getD "")
      { result := .ok final,
        memory := ag.memory.add "assistant" final,
        secondPassMessages := none }
    else
      match dispatchCalls ag.tools msg.tool_calls messages with
      | .error e =>
        { result := .error (.pyError e), memory := ag.memory, secondPassMessages := none }
      | .ok messages' =>
        let sent := messages' ++ [assistantToolRequestMsg msg.tool_calls]
        match api.secondResponse with
        | .error e =>
          { result := .error (.apiError e), memory := ag.memory,
            secondPassMessages := some sent }
        | .ok content =>
          let final := pyStrip (content.getD "")
          { result := .ok final,
            memory := ag.memory.add "assistant" final,
            secondPassMessages := some sent }

/-! ### Helper lemmas -/

/-- Folding `Memory.add` over a list of (role, content) pairs appends the
corresponding turns in order. -/
theorem memory_foldl_add_turns (entries : List (String × String)) (m : Memory) :
    (entries.foldl (fun acc p => acc.add p.1 p.2) m).turns
      = m.turns ++ entries.map (fun p => (⟨p.1, p.2⟩ : Turn)) := by
  induction entries generalizing m with
  | nil => simp
  | cons e rest ih =>
    simp only [List.foldl_cons, List.map_cons]
    rw [ih]
    simp [Memory.add]

/-- If every call before `c` dispatches successfully and `c`'s tool name is
not in the registry, the dispatch loop aborts with `KeyError` on `c`'s
name. -/
theorem dispatchCalls_error_at_missing (tools : Registry) (pre : List ToolCall)
    (c : ToolCall) (rest : List ToolCall)
    (hpre : ∀ c' ∈ pre, ∃ m, dispatchOne tools c' = .ok m)
    (hmiss : registryLookup tools c.function.name = none) :
    ∀ msgs, dispatchCalls tools (pre ++ c :: rest) msgs
      = .error (.keyError c.function.name) := by
  induction pre with
  | nil =>
    intro msgs
    simp [dispatchCalls, dispatchOne, hmiss]
  | cons p pre' ih =>
    intro msgs
    obtain ⟨m, hm⟩ := hpre p (by simp)
    simp only [List.cons_append, dispatchCalls, hm]
    exact ih (fun c' hc' => hpre c' (by simp [hc'])) _

/-- `Agent.solve` either returns a final answer and appends exactly that
answer to memory as an assistant turn, or terminates with an error and
leaves memory untouched. -/
theorem solve_shape (ag : Agent) (api : ApiBehavior) (q : String) :
    (∃ final sp, ag.solve api q = ⟨.ok final, ag.memory.add "assistant" final, sp⟩) ∨
    (∃ e sp, ag.solve api q = ⟨.error e, ag.memory, sp⟩) := by
  unfold Agent.solve
  rcases hfr : api.firstResponse with e | msg
  · exact .inr ⟨_, _, rfl⟩
  · by_cases hemp : msg.tool_calls.isEmpty
    · simp only [hemp, if_true]
      exact .inl ⟨_, _, rfl⟩
    · simp only [hemp, if_false, Bool.false_eq_true]
      rcases hdc : dispatchCalls ag.tools msg.tool_calls (solveInitMessages ag q) with e | ms
      · exact .inr ⟨_, _, rfl⟩
      · rcases hsr : api.secondResponse with e | content
        · exact .inr ⟨_, _, rfl⟩
        · exact .inl ⟨_, _, rfl⟩

/-! ### Concrete fixtures used by the counterexamples and witnesses -/

/-- A well-formed tool call A for the registered tool. -/
def mathCallA : ToolCall :=
  ⟨"call_A", ⟨"evaluate_math", [("expression", "1+1"), ("mode", "eval")]⟩⟩

/-- A well-formed tool call B for the registered tool. -/
def mathCallB : ToolCall :=
  ⟨"call_B", ⟨"evaluate_math", [("expression", "3"), ("mode", "factorial")]⟩⟩

/-- A tool call whose name is not a key of the default registry. -/
def badNameCall : ToolCall :=
  ⟨"call_1", ⟨"no_such_tool", [("expression", "1+1"), ("mode", "eval")]⟩⟩

/-! ### Claims about the math tool and the memory buffer -/

/-- Claim C3, counterexample: the claim says `evaluate_math` never raises,
even on a malformed payload lacking the `expression` or `mode` key; but the
two subscripts happen before any `try` block, so a payload missing either
key makes the embedded `evaluate_math` raise a propagating `KeyError`. -/
theorem C3_counterexample :
    evaluate_math [("mode", "eval")] = .error (.keyError "expression") ∧
    evaluate_math [("expression", "1+1")] = .error (.keyError "mode") :=
  ⟨rfl, rfl⟩

/-- Claim C3 as amended: for every payload that carries both the
`expression` and the `mode` key, `evaluate_math` returns a string and never
raises — every mode body is wrapped in a catch-all handler and the unknown
mode falls through to a literal error string.  A payload missing either
key instead raises `KeyError`. -/
theorem C3_amended_total_with_keys (payload : Args) (e m : String)
    (he : argsLookup payload "expression" = some e)
    (hm : argsLookup payload "mode" = some m) :
    ∃ s, evaluate_math payload = .ok s := by
  unfold evaluate_math argsGet
  rw [he, hm]
  show ∃ s, (if m == "sqrt" then _ else _) = Except.ok s
  split
  · exact ⟨_, rfl⟩
  · split
    · exact ⟨_, rfl⟩
    · split
      · split
        · exact ⟨_, rfl⟩
        · exact ⟨_, rfl⟩
      · exact ⟨_, rfl⟩

/-- Claim C3 witness: the amended theorem applied at a concrete payload
carrying both keys. -/
theorem C3_witness :
    argsLookup [("expression", "3"), ("mode", "factorial")] "expression" = some "3" ∧
    argsLookup [("expression", "3"), ("mode", "factorial")] "mode" = some "factorial" ∧
    ∃ s, evaluate_math [("expression", "3"), ("mode", "factorial")] = .ok s :=
  ⟨rfl, rfl, C3_amended_total_with_keys _ "3" "factorial" rfl rfl⟩

/-- Claim C4: for every expression string containing at least one character
outside the whitelist `0123456789+-*/(). `, eval mode returns the
disallowed-characters error string; the whitelist check precedes the
evaluator, so the expression is never evaluated. -/
theorem C4_eval_rejects_disallowed_chars (expr : String)
    (h : ∃ c ∈ expr.data, c ∉ allowedEvalChars) :
    evaluate_math [("expression", expr), ("mode", "eval")]
      = .ok "Error: disallowed characters" := by
  have key : evaluate_math [("expression", expr), ("mode", "eval")]
      = if expr.data.all (fun c => decide (c ∈ allowedEvalChars))
        then .ok (pyCatch (pyEvalString expr))
        else .ok "Error: disallowed characters" := rfl
  have hall : (expr.data.all fun c => decide (c ∈ allowedEvalChars)) = false := by
    obtain ⟨c, hc, hno⟩ := h
    rw [List.all_eq_false]
    exact ⟨c, hc, by simpa using hno⟩
  rw [key, hall]
  simp

/-- Claim C4 witness: the theorem applied at the concrete expression
`"2+x"`, whose character `x` is outside the whitelist. -/
theorem C4_witness :
    evaluate_math [("expression", "2+x"), ("mode", "eval")]
      = .ok "Error: disallowed characters" :=
  C4_eval_rejects_disallowed_chars "2+x" ⟨'x', by decide, by decide⟩

/-- Claim C5: in factorial mode, an expression parsing as an integer `n`
yields the exact decimal digits of `n!` (arbitrary precision) when
`0 ≤ n ≤ 10000`, the literal out-of-range error string when `n < 0` or
`n > 10000`, and an expression that does not parse as an integer yields a
tagged error string. -/
theorem C5_factorial_mode (expr : String) :
    (∀ n : Int, pyIntParse expr = some n →
      evaluate_math [("expression", expr), ("mode", "factorial")]
        = .ok (if n < 0 ∨ n > 10000 then "Error: n out of range"
               else toString (Nat.factorial n.toNat))) ∧
    (pyIntParse expr = none →
      ∃ msg, evaluate_math [("expression", expr), ("mode", "factorial")]
        = .ok ("Error: " ++ msg)) := by
  have key : evaluate_math [("expression", expr), ("mode", "factorial")]
      = .ok (pyCatch (match pyIntParse expr with
          | none => .error (.valueError
              ("invalid literal for int() with base 10: " ++ pyReprString expr))
          | some n =>
            if n < 0 ∨ n > 10000 then .ok "Error: n out of range"
            else .ok (toString (Nat.factorial n.toNat)))) := rfl
  constructor
  · intro n hn
    rw [key, hn]
    by_cases h : n < 0 ∨ n > 10000 <;> simp [h, pyCatch]
  · intro hn
    rw [key, hn]
    exact ⟨_, rfl⟩

/-- Claim C5 witness: the theorem applied at the concrete in-range input
`"5"`, whose factorial renders as `"120"`. -/
theorem C5_witness :
    pyIntParse "5" = some 5 ∧
    evaluate_math [("expression", "5"), ("mode", "factorial")] = .ok "120" := by
  refine ⟨rfl, ?_⟩
  have h := (C5_factorial_mode "5").1 5 rfl
  rw [h]
  rfl

/-- Claim C6: eval mode evaluates whitelisted expressions with standard
arithmetic precedence — `"2 + 3 * 4"` gives `"14"`, `"(2+3)*4"` gives
`"20"` — and `"1/0"` produces the (tagged) division-by-zero error string
instead of a crash: the `ZeroDivisionError` is caught and converted. -/
theorem C6_eval_precedence_and_division :
    evaluate_math [("expression", "2 + 3 * 4"), ("mode", "eval")] = .ok "14" ∧
    evaluate_math [("expression", "(2+3)*4"), ("mode", "eval")] = .ok "20" ∧
    evaluate_math [("expression", "1/0"), ("mode", "eval")]
      = .ok ("Error: " ++ "division by zero") :=
  ⟨rfl, rfl, rfl⟩

/-- The memory buffer obtained by adding a list of (role, content) entries
in order to a fresh `Memory`. -/
def memoryOfEntries (entries : List (String × String)) : Memory :=
  entries.foldl (fun acc p => acc.add p.1 p.2) ⟨[]⟩

/-- Claim C7: after N `Memory.add` calls, `as_messages` returns exactly N
entries, in insertion order, with role and content unchanged; it is a pure
function of the buffer (so repeated calls agree) and the buffer itself
still holds the same turns afterwards (nothing is consumed). -/
theorem C7_memory_roundtrip (entries : List (String × String)) :
    (memoryOfEntries entries).as_messages
        = entries.map (fun p => ({ role := p.1, content := some p.2 } : Msg)) ∧
    (memoryOfEntries entries).as_messages.length = entries.length ∧
    (memoryOfEntries entries).turns = entries.map (fun p => (⟨p.1, p.2⟩ : Turn)) := by
  have ht : (memoryOfEntries entries).turns
      = entries.map (fun p => (⟨p.1, p.2⟩ : Turn)) := by
    have := memory_foldl_add_turns entries ⟨[]⟩
    simpa [memoryOfEntries] using this
  refine ⟨?_, ?_, ht⟩
  · simp [Memory.as_messages, ht, List.map_map, Function.comp]
  · simp [Memory.as_messages, ht]

/-- Claim C9, counterexample: `Memory.add` accepts and appends a turn whose
role `"banana"` is outside the recognized set {user, assistant, tool,
system}; nothing is rejected. -/
theorem C9_counterexample :
    ((⟨[]⟩ : Memory).add "banana" "x").turns = [⟨"banana", "x"⟩] ∧
    ("banana" ≠ "user" ∧ "banana" ≠ "assistant" ∧
      "banana" ≠ "tool" ∧ "banana" ≠ "system") :=
  ⟨rfl, by decide⟩

/-- Claim C9 as amended: `Memory.add` performs no validation of the role
argument — a turn with any role string, including one outside the
recognized enum set, is appended verbatim rather than rejected. -/
theorem C9_amended_add_unvalidated (m : Memory) (role content : String)
    (_h : role ∉ ["user", "assistant", "tool", "system"]) :
    (m.add role content).turns = m.turns ++ [⟨role, content⟩] := rfl

/-- Claim C9 witness: the amended theorem applied at the non-enum role
`"banana"`. -/
theorem C9_witness :
    ((⟨[]⟩ : Memory).add "banana" "x").turns = [] ++ [⟨"banana", "x"⟩] :=
  C9_amended_add_unvalidated ⟨[]⟩ "banana" "x" (by decide)

/-! ### Claims about the dispatch loop of `Agent.solve` -/

/-- Claim C1, counterexample: the claim says a tool call naming an
unregistered tool does not crash the dispatch loop and still receives a
dispatch-error result turn; but on a first-pass response requesting the
unregistered tool `no_such_tool`, the embedded `Agent.solve` terminates
with a propagating `KeyError` and no second pass (hence no result turn)
happens. -/
theorem C1_counterexample :
    (mkAgent.solve ⟨.ok ⟨none, [badNameCall]⟩, .ok (some "unused")⟩ "q").result
        = .error (.pyError (.keyError "no_such_tool")) ∧
    (mkAgent.solve ⟨.ok ⟨none, [badNameCall]⟩, .ok (some "unused")⟩ "q").secondPassMessages
        = none :=
  ⟨rfl, rfl⟩

/-- Claim C1 as amended: when the first-pass response requests a tool call
whose name is not a key of the registry (all calls before it dispatching
normally), `Agent.solve` raises — the dict subscript `self.tools[name]`
propagates a `KeyError` carrying that name — so no dispatch-error result
turn is produced, no second pass happens, and memory is left unchanged. -/
theorem C1_amended_unknown_tool_raises (ag : Agent) (api : ApiBehavior) (q : String)
    (msg : FirstMessage) (pre : List ToolCall) (c : ToolCall) (rest : List ToolCall)
    (hfr : api.firstResponse = .ok msg)
    (hcalls : msg.tool_calls = pre ++ c :: rest)
    (hpre : ∀ c' ∈ pre, ∃ m, dispatchOne ag.tools c' = .ok m)
    (hmiss : registryLookup ag.tools c.function.name = none) :
    ag.solve api q
      = ⟨.error (.pyError (.keyError c.function.name)), ag.memory, none⟩ := by
  have hne : (pre ++ c :: rest).isEmpty = false := by
    cases pre <;> simp
  have hd := dispatchCalls_error_at_missing ag.tools pre c rest hpre hmiss
    (solveInitMessages ag q)
  unfold Agent.solve
  rw [hfr]
  simp only [hcalls, hne, Bool.false_eq_true, if_false, hd]

/-- Claim C1 witness: the amended theorem applied to a concrete two-call
response — a well-formed `evaluate_math` call followed by a call to the
unregistered name `no_such_tool`. -/
theorem C1_witness :
    mkAgent.solve ⟨.ok ⟨none, [mathCallA, badNameCall]⟩, .ok (some "unused")⟩ "q"
      = ⟨.error (.pyError (.keyError "no_such_tool")), mkAgent.memory, none⟩ := by
  have h := C1_amended_unknown_tool_raises mkAgent
    ⟨.ok ⟨none, [mathCallA, badNameCall]⟩, .ok (some "unused")⟩ "q"
    ⟨none, [mathCallA, badNameCall]⟩ [mathCallA] badNameCall [] rfl rfl
    (by intro c' hc'
        simp only [List.mem_singleton] at hc'
        subst hc'
        exact ⟨_, rfl⟩)
    rfl
  exact h

/-- Claim C2, code-bug evidence: on a first-pass response requesting calls
A then B, the message list the embedded `Agent.solve` passes to the second
completion call holds A's result turn strictly before B's result turn, but
the assistant turn carrying the original tool-call request list comes LAST
— after both result turns — where the claim (and the external API's
well-formedness requirement the spec cites) place it strictly before
both. -/
theorem C2_second_pass_message_order :
    (mkAgent.solve ⟨.ok ⟨none, [mathCallA, mathCallB]⟩, .ok (some "done")⟩ "q").secondPassMessages
      = some
        [⟨"system", some solveSystemPrompt, none, none, none⟩,
         ⟨"user", some "q", none, none, none⟩,
         toolResultMsg mathCallA "2",
         toolResultMsg mathCallB "6",
         assistantToolRequestMsg [mathCallA, mathCallB]] :=
  rfl

/-- Claim C8: every successful `Agent.solve` call appends exactly one turn
to long-lived memory, with role `assistant` and content equal to the
returned final answer.  The appended-one-turn equation also shows that the
tool-result turns built during dispatch never reach long-lived memory —
they exist only in the per-call outgoing message list. -/
theorem C8_solve_appends_exactly_final_answer (ag : Agent) (api : ApiBehavior)
    (q final : String) (h : (ag.solve api q).result = .ok final) :
    (ag.solve api q).memory.turns = ag.memory.turns ++ [⟨"assistant", final⟩] := by
  rcases solve_shape ag api q with ⟨f, sp, hs⟩ | ⟨e, sp, hs⟩
  · rw [hs] at h ⊢
    simp only [Except.ok.injEq] at h
    subst h
    rfl
  · rw [hs] at h
    simp at h

/-- Claim C8 witness: the theorem applied to a concrete successful run on
the no-tools path, where the trimmed draft `"hi"` is both returned and
appended. -/
theorem C8_witness :
    (mkAgent.solve ⟨.ok ⟨some "  hi  ", []⟩, .ok none⟩ "q").result = .ok "hi" ∧
    (mkAgent.solve ⟨.ok ⟨some "  hi  ", []⟩, .ok none⟩ "q").memory.turns
      = mkAgent.memory.turns ++ [⟨"assistant", "hi"⟩] :=
  ⟨rfl, C8_solve_appends_exactly_final_answer mkAgent ⟨.ok ⟨some "  hi  ", []⟩, .ok none⟩
    "q" "hi" rfl⟩

/-- Claim C10: if an external completion call made by `Agent.solve` raises
— the first pass, or the second pass on the tool path — `solve` propagates
that failure and leaves the long-lived memory buffer exactly as it was
(the single memory append happens only after a final answer is
obtained). -/
theorem C10_api_failure_leaves_memory_unchanged (ag : Agent) (api : ApiBehavior)
    (q : String) :
    (∀ e, api.firstResponse = .error e →
      ag.solve api q = ⟨.error (.apiError e), ag.memory, none⟩) ∧
    (∀ e msg ms, api.firstResponse = .ok msg → msg.tool_calls.isEmpty = false →
      dispatchCalls ag.tools msg.tool_calls (solveInitMessages ag q) = .ok ms →
      api.secondResponse = .error e →
      ag.solve api q = ⟨.error (.apiError e), ag.memory,
        some (ms ++ [assistantToolRequestMsg msg.tool_calls])⟩) := by
  constructor
  · intro e h
    unfold Agent.solve
    rw [h]
  · intro e msg ms h1 h2 h3 h4
    unfold Agent.solve
    rw [h1]
    simp only [h2, Bool.false_eq_true, if_false, h3, h4]

/-- Claim C10 witness: both conjuncts applied at concrete inputs — a
first-pass failure, and a second-pass failure after one successful
dispatch. -/
theorem C10_witness :
    mkAgent.solve ⟨.error "boom", .ok none⟩ "q"
      = ⟨.error (.apiError "boom"), mkAgent.memory, none⟩ ∧
    mkAgent.solve ⟨.ok ⟨none, [mathCallA]⟩, .error "crash"⟩ "q"
      = ⟨.error (.apiError "crash"), mkAgent.memory,
         some ([⟨"system", some solveSystemPrompt, none, none, none⟩,
                ⟨"user", some "q", none, none, none⟩,
                toolResultMsg mathCallA "2"]
           ++ [assistantToolRequestMsg [mathCallA]])⟩ :=
  ⟨(C10_api_failure_leaves_memory_unchanged mkAgent ⟨.error "boom", .ok none⟩ "q").1
      "boom" rfl,
   (C10_api_failure_leaves_memory_unchanged mkAgent
      ⟨.ok ⟨none, [mathCallA]⟩, .error "crash"⟩ "q").2
      "crash" ⟨none, [mathCallA]⟩
      [⟨"system", some solveSystemPrompt, none, none, none⟩,
       ⟨"user", some "q", none, none, none⟩,
       toolResultMsg mathCallA "2"]
      rfl rfl rfl rfl⟩
